import Mathlib

/-!
Shallow embedding of the API client, the analytics cache and the dashboard
refresh orchestration of the Saudi Health Analytics front-end
(`assets/js/app.js`): `APIClient.request`, the `AnalyticsEngine` ratio and
cache helpers, and `HealthWorkforceApp.loadInitialData` /
`refreshDashboardData`.  JavaScript numbers are modelled as rationals with
explicit `NaN` / infinity / `undefined` values, `Date.now()` as an explicit
integer parameter, the `Map` backing the cache as an association list, and
the asynchronous control flow of a refresh cycle as the list of events the
cycle emits in program order.
-/

/-- JavaScript numeric operands as they can reach the `AnalyticsEngine` ratio
helpers: finite numbers are rationals; `Infinity`, `-Infinity`, `NaN` and
`undefined` are explicit constructors.  (JavaScript has a signed zero, which
`ℚ` lacks; the sign of a division by zero is taken from the numerator alone,
a case the guarded source code never reaches.) -/
inductive JSNum where
  | num (q : ℚ)
  | posInf
  | negInf
  | nan
  | undef
deriving DecidableEq

/-- The JavaScript comparison `x > 0`: `undefined` coerces to `NaN`, and every
comparison with `NaN` is false. -/
def jsGtZero : JSNum → Bool
  | JSNum.num q => decide (0 < q)
  | JSNum.posInf => true
  | JSNum.negInf => false
  | JSNum.nan => false
  | JSNum.undef => false

/-- JavaScript division on numeric operands (`undefined` coerces to `NaN`). -/
def jsDiv : JSNum → JSNum → JSNum
  | JSNum.num a, JSNum.num b =>
      if b = 0 then
        if 0 < a then JSNum.posInf else if a < 0 then JSNum.negInf else JSNum.nan
      else JSNum.num (a / b)
  | JSNum.num _, JSNum.posInf => JSNum.num 0
  | JSNum.num _, JSNum.negInf => JSNum.num 0
  | JSNum.posInf, JSNum.num b => if 0 ≤ b then JSNum.posInf else JSNum.negInf
  | JSNum.negInf, JSNum.num b => if 0 ≤ b then JSNum.negInf else JSNum.posInf
  | _, _ => JSNum.nan

/-- JavaScript multiplication on numeric operands (`undefined` coerces to `NaN`). -/
def jsMul : JSNum → JSNum → JSNum
  | JSNum.num a, JSNum.num b => JSNum.num (a * b)
  | JSNum.num a, JSNum.posInf =>
      if 0 < a then JSNum.posInf else if a < 0 then JSNum.negInf else JSNum.nan
  | JSNum.posInf, JSNum.num b =>
      if 0 < b then JSNum.posInf else if b < 0 then JSNum.negInf else JSNum.nan
  | JSNum.num a, JSNum.negInf =>
      if 0 < a then JSNum.negInf else if a < 0 then JSNum.posInf else JSNum.nan
  | JSNum.negInf, JSNum.num b =>
      if 0 < b then JSNum.negInf else if b < 0 then JSNum.posInf else JSNum.nan
  | JSNum.posInf, JSNum.posInf => JSNum.posInf
  | JSNum.posInf, JSNum.negInf => JSNum.negInf
  | JSNum.negInf, JSNum.posInf => JSNum.negInf
  | JSNum.negInf, JSNum.negInf => JSNum.posInf
  | _, _ => JSNum.nan

/-- Embeds `AnalyticsEngine.calculateUtilizationRate(data)`:
`authorized > 0 ? (filled / authorized) * 100 : 0`. -/
def calculateUtilizationRate (filled authorized : JSNum) : JSNum :=
  if jsGtZero authorized then jsMul (jsDiv filled authorized) (JSNum.num 100)
  else JSNum.num 0

/-- A JavaScript value that may be `null` (`getCacheItem`'s sentinel for an
absent entry is `null`, and `null` is also a storable value). -/
inductive JVal (α : Type) where
  | jnull
  | jval (a : α)
deriving DecidableEq

/-- One cache entry as stored by `setCacheItem`: `{ value, expiry }` with the
expiry an absolute `Date.now()`-style millisecond timestamp. -/
structure CacheEntry (α : Type) where
  value : JVal α
  expiry : ℤ
deriving DecidableEq

/-- The `Map` backing `AnalyticsEngine.cache`, as an association list with
unique keys (every state reachable through the `Map` API has unique keys). -/
abbrev Cache (α : Type) : Type := List (String × CacheEntry α)

/-- Embeds `Map.prototype.get k`: the value stored under `k`, if any. -/
def mapGet {β : Type} : List (String × β) → String → Option β
  | [], _ => none
  | p :: rest, k => if p.1 = k then some p.2 else mapGet rest k

/-- Embeds `Map.prototype.set k v`: stores `v` under `k`, overwriting any existing
binding of `k`. -/
def mapSet {β : Type} : List (String × β) → String → β → List (String × β)
  | [], k, v => [(k, v)]
  | p :: rest, k, v => if p.1 = k then (k, v) :: rest else p :: mapSet rest k v

/-- Embeds `Map.prototype.delete k`: removes the binding of `k`.  `Map` keys are
unique, so on every state reachable through the `Map` API at most one binding
exists; removal is modelled key-set based as dropping every binding of `k`. -/
def mapDelete {β : Type} (m : List (String × β)) (k : String) : List (String × β) :=
  m.filter (fun p => p.1 ≠ k)

theorem mapGet_mapSet_self {β : Type} (m : List (String × β)) (k : String) (v : β) :
    mapGet (mapSet m k v) k = some v := by
  induction m with
  | nil => simp [mapSet, mapGet]
  | cons p rest ih =>
    by_cases h : p.1 = k
    · simp [mapSet, h, mapGet]
    · simp [mapSet, h, mapGet, ih]

theorem mapGet_mapDelete_self {β : Type} (m : List (String × β)) (k : String) :
    mapGet (mapDelete m k) k = none := by
  induction m with
  | nil => rfl
  | cons p rest ih =>
    by_cases h : p.1 = k
    · simpa [mapDelete, h] using ih
    · simpa [mapDelete, mapGet, h] using ih

/-- The default `ttl` of `setCacheItem` (5 minutes, in milliseconds). -/
def DEFAULT_TTL : ℤ := 300000

/-- Embeds `AnalyticsEngine.setCacheItem(key, value, ttl = 300000)`:
`this.cache.set(key, { value, expiry: Date.now() + ttl })`, with `Date.now()`
passed as the explicit `now` parameter. -/
def setCacheItem {α : Type} (now : ℤ) (cache : Cache α) (key : String)
    (value : JVal α) (ttl : ℤ) : Cache α :=
  mapSet cache key ⟨value, now + ttl⟩

/-- Embeds `AnalyticsEngine.getCacheItem(key)`: returns `null` when no entry exists;
when the entry is expired (`Date.now() > item.expiry`) deletes it and returns
`null`; otherwise returns the stored value.  The result is paired with the
cache state after the call. -/
def getCacheItem {α : Type} (now : ℤ) (cache : Cache α) (key : String) :
    JVal α × Cache α :=
  match mapGet cache key with
  | none => (JVal.jnull, cache)
  | some item =>
    if item.expiry < now then (JVal.jnull, mapDelete cache key)
    else (item.value, cache)

/-- C5: for every key, value and `ttl > 0`, `setCacheItem` followed at the same
instant by `getCacheItem` returns the stored value; `setCacheItem`
unconditionally overwrites any existing entry for the key with
`{ value, expiry: now + ttl }`, and the default ttl is 300000 ms. -/
theorem setCacheItem_get_roundtrip {α : Type} (now : ℤ) (c : Cache α) (k : String)
    (v : JVal α) (ttl : ℤ) (h : 0 < ttl) :
    (getCacheItem now (setCacheItem now c k v ttl) k).1 = v ∧
    mapGet (setCacheItem now c k v ttl) k = some ⟨v, now + ttl⟩ ∧
    DEFAULT_TTL = 300000 := by
  have hget : mapGet (setCacheItem now c k v ttl) k = some ⟨v, now + ttl⟩ :=
    mapGet_mapSet_self c k _
  have hnot : ¬ ((⟨v, now + ttl⟩ : CacheEntry α).expiry < now) := by
    simp only [CacheEntry.mk.injEq]
    omega
  refine ⟨?_, hget, rfl⟩
  simp [getCacheItem, hget, hnot]

theorem setCacheItem_get_roundtrip_witness :
    (getCacheItem 0 (setCacheItem 0 ([] : Cache ℕ) "k" (JVal.jval 7) 1000) "k").1
      = JVal.jval 7 :=
  (setCacheItem_get_roundtrip 0 [] "k" (JVal.jval 7) 1000 (by decide)).1

/-- C6: `getCacheItem` returns the stored value when an entry is present and
`now ≤ expiry`; it returns the `null` sentinel when no entry exists, and when
the entry is expired (`expiry < now`) it returns `null` and deletes the entry,
so a subsequent lookup finds the key absent. -/
theorem getCacheItem_spec {α : Type} (now : ℤ) (c : Cache α) (k : String) :
    (∀ e : CacheEntry α, mapGet c k = some e → now ≤ e.expiry →
      getCacheItem now c k = (e.value, c)) ∧
    (mapGet c k = none → getCacheItem now c k = (JVal.jnull, c)) ∧
    (∀ e : CacheEntry α, mapGet c k = some e → e.expiry < now →
      (getCacheItem now c k).1 = JVal.jnull ∧
      mapGet (getCacheItem now c k).2 k = none) := by
  refine ⟨?_, ?_, ?_⟩
  · intro e he hle
    have hnot : ¬ e.expiry < now := not_lt.mpr hle
    simp [getCacheItem, he, hnot]
  · intro he
    simp [getCacheItem, he]
  · intro e he hlt
    refine ⟨?_, ?_⟩
    · simp [getCacheItem, he, hlt]
    · simp [getCacheItem, he, hlt, mapGet_mapDelete_self]

theorem getCacheItem_spec_witness :
    getCacheItem 3 [("k", (⟨JVal.jval 5, 10⟩ : CacheEntry ℕ))] "k"
      = (JVal.jval 5, [("k", ⟨JVal.jval 5, 10⟩)]) ∧
    (getCacheItem 11 [("k", (⟨JVal.jval 5, 10⟩ : CacheEntry ℕ))] "k").1 = JVal.jnull :=
  ⟨(getCacheItem_spec 3 [("k", ⟨JVal.jval 5, 10⟩)] "k").1 ⟨JVal.jval 5, 10⟩
      (by decide) (by decide),
   ((getCacheItem_spec 11 [("k", ⟨JVal.jval 5, 10⟩)] "k").2.2 ⟨JVal.jval 5, 10⟩
      (by decide) (by decide)).1⟩

/-- C7 counterexample: the claim says a stored value is observable only at
times strictly before the entry's expiry (`now < expiry`).  In the code the
entry is deleted only when `Date.now() > item.expiry`, so at `now = expiry`
the value is still returned: storing at time 0 with ttl 5 and reading at time
5 (the expiry instant) yields the stored value, not the `null` sentinel. -/
theorem cache_visible_at_expiry_counterexample :
    (getCacheItem 5 (setCacheItem 0 ([] : Cache ℕ) "k" (JVal.jval 1) 5) "k").1
      = JVal.jval 1 ∧
    (getCacheItem 5 (setCacheItem 0 ([] : Cache ℕ) "k" (JVal.jval 1) 5) "k").1
      ≠ JVal.jnull := by
  refine ⟨by rfl, ?_⟩
  intro h
  simp [getCacheItem, setCacheItem, mapSet, mapGet] at h

/-- C7 amended: a cache entry's stored value is observable through
`getCacheItem` exactly while `now ≤ expiry` (so also at the expiry instant
itself, not only strictly before it); for `now > expiry` the lookup returns
the `null` sentinel and purges the entry lazily. -/
theorem cache_visibility_le_expiry {α : Type} (now : ℤ) (c : Cache α) (k : String)
    (e : CacheEntry α) (h : mapGet c k = some e) :
    (getCacheItem now c k).1 = (if now ≤ e.expiry then e.value else JVal.jnull) ∧
    (e.expiry < now → mapGet (getCacheItem now c k).2 k = none) := by
  by_cases hle : now ≤ e.expiry
  · have hnot : ¬ e.expiry < now := not_lt.mpr hle
    refine ⟨?_, ?_⟩
    · simp [getCacheItem, h, hnot, hle]
    · intro hlt
      exact absurd hlt hnot
  · have hlt : e.expiry < now := lt_of_not_le hle
    refine ⟨?_, ?_⟩
    · simp [getCacheItem, h, hlt, hle]
    · intro _
      simp [getCacheItem, h, hlt, mapGet_mapDelete_self]

theorem cache_visibility_le_expiry_witness :
    (getCacheItem 10 [("k", (⟨JVal.jval 5, 10⟩ : CacheEntry ℕ))] "k").1
      = JVal.jval 5 := by
  have h := (cache_visibility_le_expiry 10 [("k", (⟨JVal.jval 5, 10⟩ : CacheEntry ℕ))]
    "k" ⟨JVal.jval 5, 10⟩ (by decide)).1
  simp at h
  exact h

/-- C10: the cache's sentinel for an absent entry is `null`, and a stored
`null` value is returned as `null` while unexpired, so a caller of
`getCacheItem` cannot distinguish a cached `null` from a key that was never
set: both lookups return the same `null` result. -/
theorem cache_null_indistinguishable {α : Type} (now : ℤ) (c : Cache α)
    (k k2 : String) (ttl : ℤ) (h : 0 < ttl) :
    (getCacheItem now (setCacheItem now c k JVal.jnull ttl) k).1 = JVal.jnull ∧
    (getCacheItem now ([] : Cache α) k2).1 = JVal.jnull ∧
    (getCacheItem now (setCacheItem now c k JVal.jnull ttl) k).1
      = (getCacheItem now ([] : Cache α) k2).1 := by
  have h1 := (setCacheItem_get_roundtrip now c k JVal.jnull ttl h).1
  refine ⟨h1, by simp [getCacheItem, mapGet], ?_⟩
  rw [h1]
  simp [getCacheItem, mapGet]

theorem cache_null_indistinguishable_witness :
    (getCacheItem 0 (setCacheItem 0 ([] : Cache ℕ) "k" JVal.jnull 1000) "k").1
      = JVal.jnull :=
  (cache_null_indistinguishable 0 [] "k" "other" 1000 (by decide)).1

/-- C4: for numeric inputs with `authorized > 0`, `calculateUtilizationRate`
returns exactly `100 * filled / authorized`; whenever `authorized > 0` fails
( `authorized ≤ 0`, `NaN` or `undefined` ) it returns exactly `0`, whatever
`filled` is.  The function is a total guarded expression with no exception
path. -/
theorem calculateUtilizationRate_spec :
    (∀ filled authorized : ℚ, 0 < authorized →
      calculateUtilizationRate (JSNum.num filled) (JSNum.num authorized)
        = JSNum.num (100 * filled / authorized)) ∧
    (∀ f : JSNum, ∀ authorized : ℚ, authorized ≤ 0 →
      calculateUtilizationRate f (JSNum.num authorized) = JSNum.num 0) ∧
    (∀ f : JSNum, calculateUtilizationRate f JSNum.undef = JSNum.num 0 ∧
      calculateUtilizationRate f JSNum.nan = JSNum.num 0) := by
  refine ⟨?_, ?_, ?_⟩
  · intro filled authorized hpos
    have hne : authorized ≠ 0 := ne_of_gt hpos
    simp [calculateUtilizationRate, jsGtZero, hpos, jsDiv, hne, jsMul]
    rw [div_mul_eq_mul_div, mul_comm]
  · intro f authorized hle
    have hnot : ¬ (0 < authorized) := not_lt.mpr hle
    simp [calculateUtilizationRate, jsGtZero, hnot]
  · intro f
    exact ⟨by simp [calculateUtilizationRate, jsGtZero],
           by simp [calculateUtilizationRate, jsGtZero]⟩

theorem calculateUtilizationRate_spec_witness :
    calculateUtilizationRate (JSNum.num 3) (JSNum.num 4) = JSNum.num 75 ∧
    calculateUtilizationRate (JSNum.num 3) (JSNum.num (-2)) = JSNum.num 0 ∧
    calculateUtilizationRate (JSNum.num 3) JSNum.undef = JSNum.num 0 := by
  refine ⟨?_, ?_, ?_⟩
  · have h := calculateUtilizationRate_spec.1 3 4 (by norm_num)
    rw [h]
    norm_num
  · exact calculateUtilizationRate_spec.2.1 (JSNum.num 3) (-2) (by norm_num)
  · exact (calculateUtilizationRate_spec.2.2 (JSNum.num 3)).1

/-- A JavaScript error object as observed by callers of `APIClient.request`:
its `name`, its `message`, and its `status` property (`none` models the
`undefined` a property access yields when the property was never set — the
plain `new Error(...)` the client throws sets no `status`). -/
structure JSError where
  name : String
  message : String
  status : Option ℤ
deriving DecidableEq

/-- Embeds `new Error(msg)`: a plain error; its `status` property is `undefined`. -/
def jsNewError (msg : String) : JSError :=
  ⟨"Error", msg, none⟩

instance {ε α : Type} [DecidableEq ε] [DecidableEq α] : DecidableEq (Except ε α) :=
  fun a b =>
    match a, b with
    | Except.error e1, Except.error e2 => decidable_of_iff (e1 = e2) (by simp)
    | Except.error _, Except.ok _ => isFalse (by simp)
    | Except.ok _, Except.error _ => isFalse (by simp)
    | Except.ok a1, Except.ok a2 => decidable_of_iff (a1 = a2) (by simp)

/-- A `fetch` response as a mock transport delivers it: the HTTP status and
status text, and the outcome of `response.json()` on its body. -/
structure MockResponse (β : Type) where
  status : ℕ
  statusText : String
  jsonBody : Except JSError β
deriving DecidableEq

/-- Embeds `Response.ok` per the fetch specification: status in the range 200-299. -/
def respOk (status : ℕ) : Bool :=
  decide (200 ≤ status ∧ status ≤ 299)

/-- What the transport does for one `fetch` call: reject at the network level
(`fetch` rejects, e.g. DNS failure or connection refused), or deliver a
response. -/
inductive FetchOutcome (β : Type) where
  | networkFailure (e : JSError)
  | response (r : MockResponse β)
deriving DecidableEq

/-- The observable outcome of one `APIClient.request` call: the value the
promise settles with, the `console.error` lines emitted (endpoint paired with
the error), and how many `fetch` calls the transport saw. -/
structure RequestResult (β : Type) where
  result : Except JSError β
  loggedErrors : List (String × JSError)
  fetchCalls : ℕ
deriving DecidableEq

/-- Embeds `APIClient.request(endpoint, options)`: awaits `fetch`; on a non-2xx
response throws `new Error("HTTP " + status + ": " + statusText)`; otherwise
awaits `response.json()` and resolves with the parsed body.  The surrounding
`try`/`catch` logs every error with the endpoint and re-throws it unchanged;
there is no retry, so the transport sees exactly one `fetch` call. -/
def APIClient.request {β : Type} (endpoint : String) (transport : FetchOutcome β) :
    RequestResult β :=
  match transport with
  | FetchOutcome.networkFailure e => ⟨Except.error e, [(endpoint, e)], 1⟩
  | FetchOutcome.response r =>
    if respOk r.status then
      match r.jsonBody with
      | Except.error e => ⟨Except.error e, [(endpoint, e)], 1⟩
      | Except.ok v => ⟨Except.ok v, [], 1⟩
    else
      ⟨Except.error (jsNewError ("HTTP " ++ toString r.status ++ ": " ++ r.statusText)),
       [(endpoint, jsNewError ("HTTP " ++ toString r.status ++ ": " ++ r.statusText))], 1⟩

/-- The status property of the error a request settled with, if any. -/
def errStatusOf {β : Type} : Except JSError β → Option ℤ
  | Except.error e => e.status
  | Except.ok _ => none

/-- A mock transport delivering HTTP 500. -/
def resp500 : FetchOutcome ℕ :=
  FetchOutcome.response ⟨500, "Internal Server Error", Except.ok 0⟩

/-- C2 counterexample: against a mock transport returning HTTP 500,
`APIClient.request` rejects with a plain `Error` named "Error" whose message
is "HTTP 500: Internal Server Error"; the error carries no `status` property
at all, so it is not a `RequestError` whose `status` equals `500` (no such
error class exists in the code). -/
theorem request_500_counterexample :
    (APIClient.request "/x" resp500).result
      = Except.error (jsNewError ("HTTP 500: Internal Server Error")) ∧
    errStatusOf (APIClient.request "/x" resp500).result = none ∧
    errStatusOf (APIClient.request "/x" resp500).result ≠ some 500 := by
  refine ⟨by rfl, by rfl, by decide⟩

/-- C2 amended: a non-2xx response makes `request` fail with a plain `Error`
whose message is `"HTTP " + status + ": " + statusText` (the status is carried
only in the message text, not as a structured field); a body-parse failure
fails with the parse error itself; a network-level failure fails with the
transport's error itself; every error is logged once with the endpoint and
re-raised unchanged, the success path logs nothing, and the transport sees
exactly one `fetch` call (no retry). -/
theorem request_error_spec {β : Type} (endpoint : String) (t : FetchOutcome β) :
    (∀ r : MockResponse β, t = FetchOutcome.response r → respOk r.status = false →
      (APIClient.request endpoint t).result
        = Except.error (jsNewError ("HTTP " ++ toString r.status ++ ": " ++ r.statusText)) ∧
      (APIClient.request endpoint t).loggedErrors
        = [(endpoint, jsNewError ("HTTP " ++ toString r.status ++ ": " ++ r.statusText))]) ∧
    (∀ r : MockResponse β, ∀ e : JSError, t = FetchOutcome.response r →
      respOk r.status = true → r.jsonBody = Except.error e →
      (APIClient.request endpoint t).result = Except.error e ∧
      (APIClient.request endpoint t).loggedErrors = [(endpoint, e)]) ∧
    (∀ e : JSError, t = FetchOutcome.networkFailure e →
      (APIClient.request endpoint t).result = Except.error e ∧
      (APIClient.request endpoint t).loggedErrors = [(endpoint, e)]) ∧
    (∀ r : MockResponse β, ∀ v : β, t = FetchOutcome.response r →
      respOk r.status = true → r.jsonBody = Except.ok v →
      (APIClient.request endpoint t).result = Except.ok v ∧
      (APIClient.request endpoint t).loggedErrors = []) ∧
    (APIClient.request endpoint t).fetchCalls = 1 := by
  refine ⟨?_, ?_, ?_, ?_, ?_⟩
  · intro r ht hok
    subst ht
    simp [APIClient.request, hok]
  · intro r e ht hok hbody
    subst ht
    simp [APIClient.request, hok, hbody]
  · intro e ht
    subst ht
    simp [APIClient.request]
  · intro r v ht hok hbody
    subst ht
    simp [APIClient.request, hok, hbody]
  · cases t with
    | networkFailure e => rfl
    | response r =>
      by_cases hok : respOk r.status
      · cases hbody : r.jsonBody with
        | error e => simp [APIClient.request, hok, hbody]
        | ok v => simp [APIClient.request, hok, hbody]
      · simp [APIClient.request, hok]

theorem request_error_spec_witness :
    (APIClient.request "/x" resp500).result
      = Except.error (jsNewError ("HTTP 500: Internal Server Error")) :=
  ((request_error_spec "/x" resp500).1 ⟨500, "Internal Server Error", Except.ok 0⟩
    rfl (by decide)).1

/-- Header lists as JavaScript header objects: association lists of header
name and header value. -/
abbrev Headers : Type := List (String × String)

/-- The `APIClient` constructor's default headers:
`{ 'Content-Type': 'application/json' }`. -/
def defaultHeaders : Headers :=
  [("Content-Type", "application/json")]

/-- The per-call `options` object of `APIClient.request`, restricted to the
only key that affects the issued headers: `headers` is `some h` when the
caller supplied a headers object, `none` when the key is absent. -/
structure RequestOptions where
  headers : Option Headers
deriving DecidableEq

/-- The headers the issued `fetch` call carries.  The source spreads the
per-call options over the defaults at the top level of the init object,
`fetch(url, { headers: this.headers, ...options })`, so a `headers` key in
`options` replaces the default headers object wholesale. -/
def sentHeaders (options : RequestOptions) : Headers :=
  match options.headers with
  | some h => h
  | none => defaultHeaders

/-- The per-key header merge that the specification's words describe:
overridden keys take the per-call value and default keys not overridden are
preserved.  Stated for comparison with `sentHeaders`. -/
def mergedHeadersSpec (options : RequestOptions) : Headers :=
  match options.headers with
  | none => defaultHeaders
  | some h => h ++ defaultHeaders.filter (fun p => (mapGet h p.1).isNone)

/-- C3 counterexample: a per-call options object supplying only an
`Authorization` header makes the issued request carry no `Content-Type`
header at all — the default is not preserved — whereas the merge the claim
describes would keep `Content-Type: application/json`. -/
theorem headers_replaced_counterexample :
    mapGet (sentHeaders ⟨some [("Authorization", "Bearer x")]⟩) "Content-Type"
      = none ∧
    mapGet (mergedHeadersSpec ⟨some [("Authorization", "Bearer x")]⟩) "Content-Type"
      = some "application/json" ∧
    sentHeaders ⟨some [("Authorization", "Bearer x")]⟩
      ≠ mergedHeadersSpec ⟨some [("Authorization", "Bearer x")]⟩ := by
  refine ⟨by rfl, by rfl, by decide⟩

/-- C3 amended: a per-call `headers` object replaces the default headers
wholesale (overridden or not, no default key survives); the default
`Content-Type: application/json` is sent exactly when the per-call options
carry no `headers` key at all. -/
theorem sentHeaders_spec (o : RequestOptions) :
    (o.headers = none → sentHeaders o = defaultHeaders) ∧
    (∀ h : Headers, o.headers = some h → sentHeaders o = h) := by
  refine ⟨?_, ?_⟩
  · intro hnone
    simp [sentHeaders, hnone]
  · intro h hsome
    simp [sentHeaders, hsome]

theorem sentHeaders_spec_witness :
    sentHeaders ⟨none⟩ = defaultHeaders ∧
    sentHeaders ⟨some [("Authorization", "Bearer x")]⟩
      = [("Authorization", "Bearer x")] :=
  ⟨(sentHeaders_spec ⟨none⟩).1 rfl,
   (sentHeaders_spec ⟨some [("Authorization", "Bearer x")]⟩).2
     [("Authorization", "Bearer x")] rfl⟩

/-- The three fetches `loadInitialData` performs, in source order. -/
inductive FetchKind where
  | dashboard
  | training
  | projections
deriving DecidableEq

/-- The endpoint each accessor builds: `getExecutiveDashboard()` (no region,
language "en"), `getTrainingCapacity()` (no region, 5 years) and
`getWorkforceProjections(1, 1, 5)`. -/
def endpointOf : FetchKind → String
  | FetchKind.dashboard => "/reports/executive-dashboard?language=en"
  | FetchKind.training => "/training/capacity?years=5"
  | FetchKind.projections => "/workforce/projections/1/1?years=5"

/-- The observable events of one refresh cycle, in program order: a fetch is
issued; its promise settles with a value or an error; the truthiness-guarded
update function for a fetch runs; the catch block logs; a success or failure
notification is shown. -/
inductive Event (β : Type) where
  | fetchStart (k : FetchKind)
  | fetchOk (k : FetchKind) (v : β)
  | fetchErr (k : FetchKind) (e : JSError)
  | update (k : FetchKind)
  | logError (e : JSError)
  | notifySuccess
  | notifyError
deriving DecidableEq

/-- One `await this.api.get...()` step inside `loadInitialData`'s single
`try` block, followed by its truthiness-guarded update call (`if (x) ...`):
on success the cycle continues with `next`; on failure control jumps to the
`catch`, which logs the error and shows the one failure notification. -/
def fetchStep {β : Type} (k : FetchKind) (res : Except JSError β)
    (truthy : β → Bool) (next : List (Event β)) : List (Event β) :=
  match res with
  | Except.error e =>
    [Event.fetchStart k, Event.fetchErr k e, Event.logError e, Event.notifyError]
  | Except.ok v =>
    [Event.fetchStart k, Event.fetchOk k v] ++
    (if truthy v then [Event.update k] else []) ++ next

/-- Embeds `HealthWorkforceApp.loadInitialData()`: inside one `try`/`catch`,
sequentially awaits the executive dashboard, the training capacity and the
workforce projections, updating the UI after each truthy result, and shows a
single success notification after the third update; the `catch` logs the
error and shows a single failure notification.  `truthy` is JavaScript
truthiness of the parsed body, `tp` is the transport serving each fetch. -/
def loadInitialData {β : Type} (truthy : β → Bool)
    (tp : FetchKind → FetchOutcome β) : List (Event β) :=
  fetchStep FetchKind.dashboard
    (APIClient.request (endpointOf FetchKind.dashboard) (tp FetchKind.dashboard)).result
    truthy
    (fetchStep FetchKind.training
      (APIClient.request (endpointOf FetchKind.training) (tp FetchKind.training)).result
      truthy
      (fetchStep FetchKind.projections
        (APIClient.request (endpointOf FetchKind.projections)
          (tp FetchKind.projections)).result
        truthy
        [Event.notifySuccess]))

def isNotifyError {β : Type} : Event β → Bool
  | Event.notifyError => true
  | _ => false

def isNotifySuccess {β : Type} : Event β → Bool
  | Event.notifySuccess => true
  | _ => false

/-- How many failure notifications a trace shows. -/
def notifyErrorCount {β : Type} (tr : List (Event β)) : ℕ :=
  (tr.filter isNotifyError).length

/-- How many success notifications a trace shows. -/
def notifySuccessCount {β : Type} (tr : List (Event β)) : ℕ :=
  (tr.filter isNotifySuccess).length

def exceptOk {ε α : Type} : Except ε α → Bool
  | Except.ok _ => true
  | Except.error _ => false

theorem fetchStart_mem_fetchStep {β : Type} (k k' : FetchKind) (res : Except JSError β)
    (truthy : β → Bool) (next : List (Event β)) :
    Event.fetchStart k' ∈ fetchStep k res truthy next ↔
      (k' = k ∨ (exceptOk res = true ∧ Event.fetchStart k' ∈ next)) := by
  cases res with
  | error e => simp [fetchStep, exceptOk]
  | ok v =>
    by_cases ht : truthy v
    · simp [fetchStep, exceptOk, ht]
    · simp [fetchStep, exceptOk, ht]

theorem notifyErrorCount_fetchStep_error {β : Type} (k : FetchKind) (e : JSError)
    (truthy : β → Bool) (next : List (Event β)) :
    notifyErrorCount (fetchStep k (Except.error e) truthy next) = 1 := by
  simp [fetchStep, notifyErrorCount, isNotifyError]

theorem notifyErrorCount_fetchStep_ok {β : Type} (k : FetchKind) (v : β)
    (truthy : β → Bool) (next : List (Event β)) :
    notifyErrorCount (fetchStep k (Except.ok v) truthy next) = notifyErrorCount next := by
  by_cases ht : truthy v <;>
    simp [fetchStep, notifyErrorCount, isNotifyError, ht]

theorem notifySuccessCount_fetchStep_error {β : Type} (k : FetchKind) (e : JSError)
    (truthy : β → Bool) (next : List (Event β)) :
    notifySuccessCount (fetchStep k (Except.error e) truthy next) = 0 := by
  simp [fetchStep, notifySuccessCount, isNotifySuccess]

theorem notifySuccessCount_fetchStep_ok {β : Type} (k : FetchKind) (v : β)
    (truthy : β → Bool) (next : List (Event β)) :
    notifySuccessCount (fetchStep k (Except.ok v) truthy next)
      = notifySuccessCount next := by
  by_cases ht : truthy v <;>
    simp [fetchStep, notifySuccessCount, isNotifySuccess, ht]

/-- C1 amended: in every refresh cycle the dashboard fetch is attempted, but
the three fetches share one `try`/`catch`: the training fetch is attempted iff
the dashboard fetch succeeded and the projections fetch iff both earlier ones
succeeded — the first failure aborts the remaining fetches of the cycle —
while exactly one aggregate failure notification is shown per failed batch
(and none, plus one success notification, when the whole batch succeeds). -/
theorem loadInitialData_single_catch {β : Type} (truthy : β → Bool)
    (tp : FetchKind → FetchOutcome β) :
    (Event.fetchStart FetchKind.dashboard ∈ loadInitialData truthy tp) ∧
    (Event.fetchStart FetchKind.training ∈ loadInitialData truthy tp ↔
      exceptOk (APIClient.request (endpointOf FetchKind.dashboard)
        (tp FetchKind.dashboard)).result = true) ∧
    (Event.fetchStart FetchKind.projections ∈ loadInitialData truthy tp ↔
      (exceptOk (APIClient.request (endpointOf FetchKind.dashboard)
          (tp FetchKind.dashboard)).result = true ∧
       exceptOk (APIClient.request (endpointOf FetchKind.training)
          (tp FetchKind.training)).result = true)) ∧
    (notifyErrorCount (loadInitialData truthy tp) =
      if (exceptOk (APIClient.request (endpointOf FetchKind.dashboard)
            (tp FetchKind.dashboard)).result &&
          exceptOk (APIClient.request (endpointOf FetchKind.training)
            (tp FetchKind.training)).result &&
          exceptOk (APIClient.request (endpointOf FetchKind.projections)
            (tp FetchKind.projections)).result) = true
        then 0 else 1) ∧
    (notifySuccessCount (loadInitialData truthy tp) =
      if (exceptOk (APIClient.request (endpointOf FetchKind.dashboard)
            (tp FetchKind.dashboard)).result &&
          exceptOk (APIClient.request (endpointOf FetchKind.training)
            (tp FetchKind.training)).result &&
          exceptOk (APIClient.request (endpointOf FetchKind.projections)
            (tp FetchKind.projections)).result) = true
        then 1 else 0) := by
  refine ⟨?_, ?_, ?_, ?_, ?_⟩
  · simp [loadInitialData, fetchStart_mem_fetchStep]
  · simp [loadInitialData, fetchStart_mem_fetchStep]
  · simp [loadInitialData, fetchStart_mem_fetchStep]
  · cases hd : (APIClient.request (endpointOf FetchKind.dashboard)
        (tp FetchKind.dashboard)).result with
    | error e =>
      simp [loadInitialData, hd, notifyErrorCount_fetchStep_error, exceptOk]
    | ok vd =>
      cases ht2 : (APIClient.request (endpointOf FetchKind.training)
          (tp FetchKind.training)).result with
      | error e =>
        simp [loadInitialData, hd, ht2, notifyErrorCount_fetchStep_error,
          notifyErrorCount_fetchStep_ok, exceptOk]
      | ok vt =>
        cases hp : (APIClient.request (endpointOf FetchKind.projections)
            (tp FetchKind.projections)).result with
        | error e =>
          simp [loadInitialData, hd, ht2, hp, notifyErrorCount_fetchStep_error,
            notifyErrorCount_fetchStep_ok, exceptOk]
        | ok vp =>
          simp only [loadInitialData, hd, ht2, hp, notifyErrorCount_fetchStep_ok,
            exceptOk]
          simp [notifyErrorCount, isNotifyError]
  · cases hd : (APIClient.request (endpointOf FetchKind.dashboard)
        (tp FetchKind.dashboard)).result with
    | error e =>
      simp [loadInitialData, hd, notifySuccessCount_fetchStep_error, exceptOk]
    | ok vd =>
      cases ht2 : (APIClient.request (endpointOf FetchKind.training)
          (tp FetchKind.training)).result with
      | error e =>
        simp [loadInitialData, hd, ht2, notifySuccessCount_fetchStep_error,
          notifySuccessCount_fetchStep_ok, exceptOk]
      | ok vt =>
        cases hp : (APIClient.request (endpointOf FetchKind.projections)
            (tp FetchKind.projections)).result with
        | error e =>
          simp [loadInitialData, hd, ht2, hp, notifySuccessCount_fetchStep_error,
            notifySuccessCount_fetchStep_ok, exceptOk]
        | ok vp =>
          simp only [loadInitialData, hd, ht2, hp, notifySuccessCount_fetchStep_ok,
            exceptOk]
          simp [notifySuccessCount, isNotifySuccess]

/-- A network-level failure as `fetch` rejects with it. -/
def netErr : JSError := ⟨"TypeError", "Failed to fetch", none⟩

/-- A successful response whose body parses to `1`. -/
def okResponse : FetchOutcome ℕ :=
  FetchOutcome.response ⟨200, "OK", Except.ok 1⟩

/-- A transport on which only the dashboard fetch fails. -/
def failDashTransport : FetchKind → FetchOutcome ℕ
  | FetchKind.dashboard => FetchOutcome.networkFailure netErr
  | FetchKind.training => okResponse
  | FetchKind.projections => okResponse

/-- C1 counterexample: on a cycle whose dashboard fetch fails while the other
two would succeed, the training and projections fetches are never attempted —
the single `catch` aborts the batch — refuting that a failure in one fetch
does not prevent the remaining fetches of the same cycle (the one aggregate
failure notification does fire). -/
theorem loadInitialData_abort_counterexample :
    Event.fetchStart FetchKind.training ∉
      loadInitialData (fun _ => true) failDashTransport ∧
    Event.fetchStart FetchKind.projections ∉
      loadInitialData (fun _ => true) failDashTransport ∧
    notifyErrorCount (loadInitialData (fun _ => true) failDashTransport) = 1 := by
  decide

/-- The start/settle view of a refresh-cycle trace: each fetch `k` contributes
`(k, true)` when it is issued and `(k, false)` when its promise settles. -/
def fetchEventView {β : Type} : Event β → Option (FetchKind × Bool)
  | Event.fetchStart k => some (k, true)
  | Event.fetchOk k _ => some (k, false)
  | Event.fetchErr k _ => some (k, false)
  | _ => none

def fetchEventsOf {β : Type} (tr : List (Event β)) : List (FetchKind × Bool) :=
  tr.filterMap fetchEventView

/-- The canonical start/settle sequence of one full refresh cycle: each of
dashboard, training and projections is issued only after the previous fetch's
promise has settled. -/
def canonicalFetchSeq : List (FetchKind × Bool) :=
  [(FetchKind.dashboard, true), (FetchKind.dashboard, false),
   (FetchKind.training, true), (FetchKind.training, false),
   (FetchKind.projections, true), (FetchKind.projections, false)]

theorem fetchEventsOf_fetchStep_error {β : Type} (k : FetchKind) (e : JSError)
    (truthy : β → Bool) (next : List (Event β)) :
    fetchEventsOf (fetchStep k (Except.error e) truthy next)
      = [(k, true), (k, false)] := by
  simp [fetchEventsOf, fetchStep, fetchEventView]

theorem fetchEventsOf_fetchStep_ok {β : Type} (k : FetchKind) (v : β)
    (truthy : β → Bool) (next : List (Event β)) :
    fetchEventsOf (fetchStep k (Except.ok v) truthy next)
      = (k, true) :: (k, false) :: fetchEventsOf next := by
  by_cases ht : truthy v <;>
    simp [fetchEventsOf, fetchStep, fetchEventView, ht]

theorem fetchEventsOf_loadInitialData_allOk {β : Type} (truthy : β → Bool)
    (tp : FetchKind → FetchOutcome β)
    (hd : exceptOk (APIClient.request (endpointOf FetchKind.dashboard)
      (tp FetchKind.dashboard)).result = true)
    (ht : exceptOk (APIClient.request (endpointOf FetchKind.training)
      (tp FetchKind.training)).result = true)
    (hp : exceptOk (APIClient.request (endpointOf FetchKind.projections)
      (tp FetchKind.projections)).result = true) :
    fetchEventsOf (loadInitialData truthy tp) = canonicalFetchSeq := by
  cases hd2 : (APIClient.request (endpointOf FetchKind.dashboard)
      (tp FetchKind.dashboard)).result with
  | error e => rw [hd2] at hd; simp [exceptOk] at hd
  | ok vd =>
    cases ht2 : (APIClient.request (endpointOf FetchKind.training)
        (tp FetchKind.training)).result with
    | error e => rw [ht2] at ht; simp [exceptOk] at ht
    | ok vt =>
      cases hp2 : (APIClient.request (endpointOf FetchKind.projections)
          (tp FetchKind.projections)).result with
      | error e => rw [hp2] at hp; simp [exceptOk] at hp
      | ok vp =>
        simp only [loadInitialData, hd2, ht2, hp2, fetchEventsOf_fetchStep_ok]
        simp [fetchEventsOf, fetchEventView, canonicalFetchSeq]

/-- C8: within one refresh cycle the fetch start/settle events form an initial
segment of the canonical sequence dashboard-start, dashboard-settle,
training-start, training-settle, projections-start, projections-settle — so
the fetches are issued and awaited in that fixed order and a later fetch never
starts before the earlier fetch's promise has settled — and when all three
fetches succeed the cycle realises the whole canonical sequence. -/
theorem loadInitialData_fixed_sequence {β : Type} (truthy : β → Bool)
    (tp : FetchKind → FetchOutcome β) :
    (∃ rest, fetchEventsOf (loadInitialData truthy tp) ++ rest = canonicalFetchSeq) ∧
    ((exceptOk (APIClient.request (endpointOf FetchKind.dashboard)
        (tp FetchKind.dashboard)).result = true ∧
      exceptOk (APIClient.request (endpointOf FetchKind.training)
        (tp FetchKind.training)).result = true ∧
      exceptOk (APIClient.request (endpointOf FetchKind.projections)
        (tp FetchKind.projections)).result = true) →
      fetchEventsOf (loadInitialData truthy tp) = canonicalFetchSeq) := by
  constructor
  · cases hd2 : (APIClient.request (endpointOf FetchKind.dashboard)
        (tp FetchKind.dashboard)).result with
    | error e =>
      refine ⟨[(FetchKind.training, true), (FetchKind.training, false),
               (FetchKind.projections, true), (FetchKind.projections, false)], ?_⟩
      simp only [loadInitialData, hd2, fetchEventsOf_fetchStep_error]
      rfl
    | ok vd =>
      cases ht2 : (APIClient.request (endpointOf FetchKind.training)
          (tp FetchKind.training)).result with
      | error e =>
        refine ⟨[(FetchKind.projections, true), (FetchKind.projections, false)], ?_⟩
        simp only [loadInitialData, hd2, ht2, fetchEventsOf_fetchStep_ok,
          fetchEventsOf_fetchStep_error]
        rfl
      | ok vt =>
        cases hp2 : (APIClient.request (endpointOf FetchKind.projections)
            (tp FetchKind.projections)).result with
        | error e =>
          refine ⟨[], ?_⟩
          simp only [loadInitialData, hd2, ht2, hp2, fetchEventsOf_fetchStep_ok,
            fetchEventsOf_fetchStep_error]
          rfl
        | ok vp =>
          refine ⟨[], ?_⟩
          simp only [loadInitialData, hd2, ht2, hp2, fetchEventsOf_fetchStep_ok]
          simp [fetchEventsOf, fetchEventView, canonicalFetchSeq]
  · intro h
    exact fetchEventsOf_loadInitialData_allOk truthy tp h.1 h.2.1 h.2.2

/-- A transport on which all three fetches succeed. -/
def allOkTransport : FetchKind → FetchOutcome ℕ := fun _ => okResponse

theorem loadInitialData_fixed_sequence_witness :
    fetchEventsOf (loadInitialData (fun _ => true) allOkTransport)
      = canonicalFetchSeq :=
  (loadInitialData_fixed_sequence (fun _ => true) allOkTransport).2
    ⟨by decide, by decide, by decide⟩

/-- The manual refresh button's DOM state: its `disabled` attribute and its
`innerHTML`. -/
structure Button where
  disabled : Bool
  innerHTML : String
deriving DecidableEq

/-- The refresh button as the page renders it. -/
def initialRefreshButton : Button :=
  ⟨false, "Refresh Data"⟩

/-- The synchronous segment of `refreshDashboardData` before its first
`await`: the handler sets `refreshBtn.disabled = true` and the refreshing
label, so the button is already disabled when control first returns to the
event loop. -/
def refreshSyncSegment (_b : Button) : Button :=
  ⟨true, "🔄 Refreshing..."⟩

/-- Embeds `HealthWorkforceApp.refreshDashboardData()`: disables the button, awaits
`loadInitialData` (whose internal `try`/`catch` never re-throws, so this
function's own `catch` is unreachable), then re-enables the button with the
refreshed label.  Result: the button state once the refresh has settled,
paired with the cycle's event trace.  (The 2-second `setTimeout` that later
resets the label is outside the refresh cycle and not modelled.) -/
def refreshDashboardData {β : Type} (truthy : β → Bool)
    (tp : FetchKind → FetchOutcome β) (b : Button) : Button × List (Event β) :=
  ⟨⟨(refreshSyncSegment b).disabled && false, "✅ Refreshed"⟩,
   loadInitialData truthy tp⟩

/-- DOM click dispatch: a user click on a disabled button fires no click
handler. -/
def clickFiresHandler (b : Button) : Bool :=
  !b.disabled

/-- How many `APIClient.request` calls a refresh-cycle trace makes against
the transport: one per issued fetch (each `request` performs exactly one
`fetch`). -/
def requestCallCount {β : Type} (tr : List (Event β)) : ℕ :=
  ((fetchEventsOf tr).filter (fun p => p.2)).length

/-- The scenario of the claim: two user clicks on the manual refresh button
10 ms apart while the first refresh is still in flight (no response has
arrived by the time of the second click).  The first click fires the handler,
whose synchronous segment disables the button before control returns to the
event loop; the second click is therefore dispatched against a disabled
button.  The value is the total number of `APIClient.request` calls the
transport sees once all triggered work has completed. -/
def twoClicksRequestCount {β : Type} (truthy : β → Bool)
    (tp : FetchKind → FetchOutcome β) : ℕ :=
  (if clickFiresHandler initialRefreshButton
    then requestCallCount (loadInitialData truthy tp) else 0) +
  (if clickFiresHandler (refreshSyncSegment initialRefreshButton)
    then requestCallCount (loadInitialData truthy tp) else 0)

/-- Two direct back-to-back invocations of `refreshDashboardData` (the
function both the click listener and the 5-minute timer call): nothing in the
function blocks, deduplicates or shares in-flight work, so each invocation
runs a full independent fetch batch. -/
def twoDirectRefreshCallsRequestCount {β : Type} (truthy : β → Bool)
    (tp : FetchKind → FetchOutcome β) : ℕ :=
  requestCallCount (refreshDashboardData truthy tp initialRefreshButton).2 +
  requestCallCount (refreshDashboardData truthy tp
    (refreshDashboardData truthy tp initialRefreshButton).1).2

/-- C9 counterexample: with every fetch succeeding, two clicks on the manual
refresh button within 10 ms while the first refresh is in flight produce 3
transport calls, not the claimed 6 — the handler disabled the button
synchronously on the first click, so the second click fires no handler. -/
theorem two_clicks_counterexample :
    twoClicksRequestCount (fun _ => true) allOkTransport = 3 ∧
    twoClicksRequestCount (fun _ => true) allOkTransport ≠ 6 := by
  decide

/-- C9 amended: `refreshDashboardData` itself has no blocking, deduplication
or single-flight sharing — two direct invocations issue two independent full
batches, 6 transport calls when all fetches succeed — but the manual click
path is blocked while a refresh is in flight: the handler disables the button
until the refresh settles, so a second click within 10 ms fires no handler
and the transport sees only the first batch's 3 calls. -/
theorem refresh_no_dedup_spec {β : Type} (truthy : β → Bool)
    (tp : FetchKind → FetchOutcome β)
    (hd : exceptOk (APIClient.request (endpointOf FetchKind.dashboard)
      (tp FetchKind.dashboard)).result = true)
    (ht : exceptOk (APIClient.request (endpointOf FetchKind.training)
      (tp FetchKind.training)).result = true)
    (hp : exceptOk (APIClient.request (endpointOf FetchKind.projections)
      (tp FetchKind.projections)).result = true) :
    twoDirectRefreshCallsRequestCount truthy tp = 6 ∧
    twoClicksRequestCount truthy tp = 3 := by
  have hcan := fetchEventsOf_loadInitialData_allOk truthy tp hd ht hp
  have h3 : requestCallCount (loadInitialData truthy tp) = 3 := by
    unfold requestCallCount
    rw [hcan]
    rfl
  constructor
  · simp [twoDirectRefreshCallsRequestCount, refreshDashboardData, h3]
  · simp [twoClicksRequestCount, clickFiresHandler, initialRefreshButton,
      refreshSyncSegment, h3]

theorem refresh_no_dedup_spec_witness :
    twoDirectRefreshCallsRequestCount (fun _ => true) allOkTransport = 6 :=
  (refresh_no_dedup_spec (fun _ => true) allOkTransport
    (by decide) (by decide) (by decide)).1
